import Mathlib

/-!
Verification of the GitHub project-synchronization system against its
specification. The agent tool wrappers and CLI command handlers are embedded
from src/main.py; the synchronization engine (services/github_ops.py) is not
part of the source tree, so its tree builder and ref advancement are modelled
from the specification where a claim needs them.

Python strings are modelled as Lean strings; the str.split, str.strip and
str.lower operations used by main.py are embedded explicitly below so that
their elementary properties (for instance, that split never returns an empty
list) are provable.
-/

/-- Embedding of Python str.split with a one-character separator, acting on
the character list: splitting the empty string yields one empty field, and
each occurrence of the separator starts a new field. -/
def splitOnChar (sep : Char) : List Char → List (List Char)
  | [] => [[]]
  | c :: cs =>
      match splitOnChar sep cs with
      | [] => [[]]
      | g :: gs => if c = sep then [] :: g :: gs else (c :: g) :: gs

/-- Python s.split(sep) for a one-character separator, on Lean strings. -/
def pySplit (sep : Char) (s : String) : List String :=
  (splitOnChar sep s.data).map (fun cs => String.mk cs)

/-- Characters removed by Python str.strip(): ASCII whitespace. -/
def isPySpace (c : Char) : Bool :=
  c = ' ' || c = '\t' || c = '\n' || c = '\r' || c = '\x0b' || c = '\x0c'

/-- Python s.strip(): drop leading and trailing whitespace. -/
def pyStrip (s : String) : String :=
  String.mk (((s.data.dropWhile isPySpace).reverse.dropWhile isPySpace).reverse)

/-- Python s.lower(), restricted to ASCII case folding. -/
def pyLower (s : String) : String :=
  String.mk (s.data.map Char.toLower)

theorem splitOnChar_ne_nil (sep : Char) (cs : List Char) : splitOnChar sep cs ≠ [] := by
  cases cs with
  | nil => simp [splitOnChar]
  | cons c cs =>
      simp only [splitOnChar]
      cases h : splitOnChar sep cs with
      | nil => simp
      | cons g gs =>
          by_cases hc : c = sep <;> simp [hc]

theorem pySplit_ne_nil (sep : Char) (s : String) : pySplit sep s ≠ [] := by
  simp [pySplit, splitOnChar_ne_nil]

theorem pySplit_length_pos (sep : Char) (s : String) : 0 < (pySplit sep s).length :=
  List.length_pos.mpr (pySplit_ne_nil sep s)

/-! Data carried across the boundary between main.py and the engine. -/

/-- The exception raised by services/github_ops.py operations, carrying a
human-readable message. -/
structure GitHubError where
  msg : String
deriving DecidableEq

/-- An exception observable inside an agent tool wrapper: either a
GitHubError from the GitHub operations layer or any other Python exception. -/
inductive PyExn
  | githubError (msg : String)
  | otherError (msg : String)
deriving DecidableEq

/-- Arguments of a call to sync_project_to_repo(owner, repo, path, branch). -/
structure SyncCall where
  owner : String
  repo : String
  localPath : String
  branch : String
deriving DecidableEq

/-- Arguments of a call to create_repository(name, description, private, org). -/
structure CreateCall where
  name : String
  description : String
  isPrivate : Bool
  org : Option String
deriving DecidableEq

/-- Arguments of a call to create_repo_and_sync(name, description, private, path, org). -/
structure CreateSyncCall where
  name : String
  description : String
  isPrivate : Bool
  localPath : String
  org : Option String
deriving DecidableEq

/-- The fields of the repository dictionary that main.py reads after creation. -/
structure RepoInfo where
  htmlUrl : String
deriving DecidableEq

/-- The fields of a repository entry that cmd_list_repos reads. -/
structure RepoEntry where
  name : String
  isPrivate : Bool
  description : Option String
deriving DecidableEq

/-- The result dictionary of create_repo_and_sync that main.py reads. -/
structure SyncSummary where
  url : String
  syncedFiles : List String
deriving DecidableEq

/-! Agent tool wrappers (src/main.py lines 20-118).

Each tool body runs under a try block whose two except clauses catch
GitHubError and every other exception and turn them into a returned string,
so a tool result of Except.error models an exception escaping the wrapper. -/

/-- Rendering of a caught exception by the except clauses of every tool. -/
def renderCaught : PyExn → String
  | .githubError m => "GitHub Error: " ++ m
  | .otherError m => "Unexpected error: " ++ m

/-- The try/except skeleton shared by all agent tools (main.py lines 35-38,
60-63, 87-90, 115-118): both exception classes are caught and rendered. -/
def pyTry (body : Except PyExn String) : Except PyExn String :=
  match body with
  | .ok s => .ok s
  | .error e => .ok (renderCaught e)

/-- Format-error message of create_github_repo and create_repo_and_upload_project. -/
def invalidFormatMsg : String :=
  "Error: Invalid format. Use: name|description|private(true/false)|org(optional)"

/-- Format-error message for a repository field that is not owner/repo_name. -/
def repoFormatMsg : String :=
  "Error: Repository format should be owner/repo_name"

/-- Parsing and validation phase of the agent tool create_github_repo
(main.py lines 48-57): pipe-split the input, reject fewer than three fields,
otherwise assemble the create_repository call arguments. -/
def create_github_repo_step (repo_info : String) : Except String CreateCall :=
  let parts := pySplit '|' repo_info
  if parts.length < 3 then
    .error invalidFormatMsg
  else
    .ok { name := pyStrip (parts.getD 0 "")
        , description := if 1 < parts.length then pyStrip (parts.getD 1 "") else ""
        , isPrivate := if 2 < parts.length then pyLower (pyStrip (parts.getD 2 "")) == "true" else true
        , org := if 3 < parts.length ∧ pyStrip (parts.getD 3 "") ≠ "" then some (pyStrip (parts.getD 3 "")) else none }

/-- Parsing and validation phase of the agent tool create_repo_and_upload_project
(main.py lines 100-109): identical field handling, but the resulting call is
create_repo_and_sync with the local path fixed to the current directory. -/
def create_repo_and_upload_project_step (repo_info : String) : Except String CreateSyncCall :=
  let parts := pySplit '|' repo_info
  if parts.length < 3 then
    .error invalidFormatMsg
  else
    .ok { name := pyStrip (parts.getD 0 "")
        , description := if 1 < parts.length then pyStrip (parts.getD 1 "") else ""
        , isPrivate := if 2 < parts.length then pyLower (pyStrip (parts.getD 2 "")) == "true" else true
        , localPath := "."
        , org := if 3 < parts.length ∧ pyStrip (parts.getD 3 "") ≠ "" then some (pyStrip (parts.getD 3 "")) else none }

/-- Parsing and validation phase of the agent tool sync_project_to_github
(main.py lines 73-84): pipe-split the input, split the first field on a
slash requiring exactly owner and repo, default the branch to main when the
second field is missing or blank, and fix the local path to the current
directory. -/
def sync_project_to_github_step (repo_info : String) : Except String SyncCall :=
  let parts := pySplit '|' repo_info
  if parts.length < 1 then
    .error "Error: Invalid format. Use: owner/repo_name|branch(optional)"
  else
    let repo_path := pySplit '/' (pyStrip (parts.getD 0 ""))
    if repo_path.length ≠ 2 then
      .error repoFormatMsg
    else
      .ok { owner := repo_path.getD 0 ""
          , repo := repo_path.getD 1 ""
          , localPath := "."
          , branch := if 1 < parts.length ∧ pyStrip (parts.getD 1 "") ≠ "" then pyStrip (parts.getD 1 "") else "main" }

/-- Agent tool list_my_github_repos (main.py lines 20-38); the outcome of the
get_user_info and list_repositories calls is passed in as res. -/
def list_my_github_repos (query : String) (res : Except PyExn (String × List String)) :
    Except PyExn String :=
  pyTry (match res with
    | .error e => .error e
    | .ok (login, repoNames) =>
        if repoNames.isEmpty then
          .ok ("Connected as \x27" ++ login ++ "\x27 but found 0 repositories.")
        else
          .ok ("SUCCESS! Connected as \x27" ++ login ++ "\x27. Found " ++
               toString repoNames.length ++ " repositories: " ++
               String.intercalate ", " repoNames))

/-- Agent tool create_github_repo (main.py lines 41-63); create is the
behavior of the underlying create_repository call. -/
def create_github_repo (repo_info : String) (create : CreateCall → Except PyExn RepoInfo) :
    Except PyExn String :=
  pyTry (match create_github_repo_step repo_info with
    | .error msg => .ok msg
    | .ok call =>
        match create call with
        | .error e => .error e
        | .ok repo =>
            .ok ("SUCCESS! Repository \x27" ++ call.name ++ "\x27 created: " ++ repo.htmlUrl))

/-- Agent tool sync_project_to_github (main.py lines 66-90); sync is the
behavior of the underlying sync_project_to_repo call. -/
def sync_project_to_github (repo_info : String) (sync : SyncCall → Except PyExn (List String)) :
    Except PyExn String :=
  pyTry (match sync_project_to_github_step repo_info with
    | .error msg => .ok msg
    | .ok call =>
        match sync call with
        | .error e => .error e
        | .ok syncedFiles =>
            .ok ("SUCCESS! Synced " ++ toString syncedFiles.length ++ " files to " ++
                 call.owner ++ "/" ++ call.repo ++ " on branch " ++ call.branch))

/-- Agent tool create_repo_and_upload_project (main.py lines 93-118); run is
the behavior of the underlying create_repo_and_sync call, whose Python result
may be a falsy value (modelled as none). -/
def create_repo_and_upload_project (repo_info : String)
    (run : CreateSyncCall → Except PyExn (Option SyncSummary)) : Except PyExn String :=
  pyTry (match create_repo_and_upload_project_step repo_info with
    | .error msg => .ok msg
    | .ok call =>
        match run call with
        | .error e => .error e
        | .ok (some result) =>
            .ok ("SUCCESS! Created repository and synced " ++
                 toString result.syncedFiles.length ++ " files: " ++ result.url)
        | .ok none => .ok "Failed to create repository and sync files")

/-! CLI command handlers (src/main.py lines 260-304).

A handler run is modelled as the list of printed lines together with the
exit status of the process. main (main.py lines 336-384) dispatches to the
handler and returns; no handler and no part of main ever calls sys.exit, and
each handler catches GitHubError, so a run whose underlying operation raises
GitHubError terminates the interpreter normally with exit status 0. -/

/-- Printed lines and process exit status of one CLI invocation. -/
structure CliRun where
  lines : List String
  exitCode : Nat
deriving DecidableEq

/-- CLI handler cmd_list_repos (main.py lines 260-274); res is the outcome of
the get_user_info and list_repositories calls. A leading newline in a print
call is modelled as an empty printed line. -/
def cmd_list_repos (res : Except GitHubError (String × List RepoEntry)) : CliRun :=
  match res with
  | .error e => ⟨["✗ Error: " ++ e.msg], 0⟩
  | .ok (login, repos) =>
      ⟨["", "✓ Connected as: " ++ login,
        "✓ Found " ++ toString repos.length ++ " repositories:"] ++
       (repos.map (fun r =>
          ("  • " ++ r.name ++ " - " ++ (if r.isPrivate then "🔒 Private" else "🌍 Public")) ::
          (match r.description with
           | some d => if d ≠ "" then ["    " ++ d] else []
           | none => []))).flatten ++
       [""], 0⟩

/-- CLI handler cmd_create_repo (main.py lines 276-282); res is the outcome
of the create_repository call. -/
def cmd_create_repo (res : Except GitHubError RepoInfo) : CliRun :=
  match res with
  | .error e => ⟨["✗ Error: " ++ e.msg], 0⟩
  | .ok repo => ⟨["✓ Repository created: " ++ repo.htmlUrl], 0⟩

/-- Repository-argument handling of cmd_sync_project (main.py line 287): the
tuple unpacking owner, repo = args.repository.split(sep) succeeds exactly when
the argument splits into two parts; otherwise the raised ValueError is caught
at line 292 and printed. The argument is not pipe-split. -/
def cmd_sync_project_step (repository localPath branch : String) : Except String SyncCall :=
  let repo_path := pySplit '/' repository
  if repo_path.length = 2 then
    .ok { owner := repo_path.getD 0 ""
        , repo := repo_path.getD 1 ""
        , localPath := localPath
        , branch := branch }
  else
    .error ("✗ Error: " ++ repoFormatMsg)

/-- CLI handler cmd_sync_project (main.py lines 284-293); sync is the
behavior of the underlying sync_project_to_repo call. -/
def cmd_sync_project (repository localPath branch : String)
    (sync : SyncCall → Except GitHubError (List String)) : CliRun :=
  match cmd_sync_project_step repository localPath branch with
  | .error msg => ⟨[msg], 0⟩
  | .ok call =>
      match sync call with
      | .error e => ⟨["✗ Error: " ++ e.msg], 0⟩
      | .ok syncedFiles =>
          ⟨["✓ Synced " ++ toString syncedFiles.length ++ " files to " ++ repository], 0⟩

/-- CLI handler cmd_create_and_sync (main.py lines 295-304); res is the
outcome of the create_repo_and_sync call, whose result may be falsy. -/
def cmd_create_and_sync (res : Except GitHubError (Option SyncSummary)) : CliRun :=
  match res with
  | .error e => ⟨["✗ Error: " ++ e.msg], 0⟩
  | .ok (some result) => ⟨["✓ Success! Repository URL: " ++ result.url], 0⟩
  | .ok none => ⟨["✗ Failed to create repository and sync files"], 0⟩

/-- Value of args.branch for the sync subcommand: argparse applies the
default main only when the option is absent (main.py line 357); a supplied
value, blank or not, is passed through unchanged. -/
def cliSyncBranchValue (branchOpt : Option String) : String :=
  branchOpt.getD "main"

/-! Project Synchronization Engine.

Modelled from the spec: services/github_ops.py, which implements the engine
(FileCollector, ContentUploader, TreeBuilder, CommitComposer), is not under
src/; the definitions below follow the specification text (sections 3, 4.3,
4.4 and 8). Content addressing is modelled by an explicit serialization of
the addressed object, which realizes the spec invariant that an address is a
pure function of content. -/

/-- Modelled from the spec: a LocalFile produced by FileCollector, with a
forward-slash normalized relative path, raw bytes and an executable flag. -/
structure LocalFile where
  path : String
  content : List Nat
  executable : Bool
deriving DecidableEq

/-- Modelled from the spec: the blob address, a pure function of the content
bytes (identical bytes always yield the same address). -/
def blobAddress (content : List Nat) : String :=
  "blob:" ++ String.intercalate "," (content.map toString)

/-- Modelled from the spec: the mode recorded for a file tree entry. -/
def fileMode (executable : Bool) : String :=
  if executable then "100755" else "100644"

/-- Modelled from the spec: one (relative path, object address, mode) triple
handed by ContentUploader to TreeBuilder. -/
structure SyncEntry where
  path : String
  addr : String
  mode : String
deriving DecidableEq

/-- Sort key of a sync entry: the triple of its character lists under the
lexicographic order, so distinct entries always have distinct keys. -/
def entryKey (e : SyncEntry) : List Char ×ₗ List Char ×ₗ List Char :=
  toLex (e.path.data, toLex (e.addr.data, e.mode.data))

theorem entryKey_inj {a b : SyncEntry} (h : entryKey a = entryKey b) : a = b := by
  obtain ⟨⟨ap⟩, ⟨aa⟩, ⟨am⟩⟩ := a
  obtain ⟨⟨bp⟩, ⟨ba⟩, ⟨bm⟩⟩ := b
  simp only [entryKey, toLex_inj, Prod.mk.injEq] at h
  simp [h.1, h.2.1, h.2.2]

/-- Canonical order on sync entries. -/
def entryLe (a b : SyncEntry) : Prop :=
  entryKey a ≤ entryKey b

instance : DecidableRel entryLe := fun a b =>
  inferInstanceAs (Decidable (entryKey a ≤ entryKey b))

instance : IsTotal SyncEntry entryLe :=
  ⟨fun a b => le_total (entryKey a) (entryKey b)⟩

instance : IsTrans SyncEntry entryLe :=
  ⟨fun _ _ _ h₁ h₂ => le_trans h₁ h₂⟩

instance : IsAntisymm SyncEntry entryLe :=
  ⟨fun _ _ h₁ h₂ => entryKey_inj (le_antisymm h₁ h₂)⟩

/-- Canonicalization of the flat entry set: sorting realizes the spec's
ordered, per-level deduplicated tree entries independently of the order in
which uploads completed. -/
def canonSort (entries : List SyncEntry) : List SyncEntry :=
  entries.insertionSort entryLe

theorem canonSort_eq_of_perm {l₁ l₂ : List SyncEntry} (h : l₁.Perm l₂) :
    canonSort l₁ = canonSort l₂ :=
  List.eq_of_perm_of_sorted
    (((l₁.perm_insertionSort entryLe).trans h).trans (l₂.perm_insertionSort entryLe).symm)
    (l₁.sorted_insertionSort entryLe) (l₂.sorted_insertionSort entryLe)

/-- A tree-builder entry: the remaining path segments of one input triple. -/
structure TEntry where
  segs : List String
  addr : String
  mode : String
deriving DecidableEq

/-- Serialization of one TreeEntry (path segment, mode, referenced address). -/
def treeEntryLine (name mode addr : String) : String :=
  mode ++ " " ++ name ++ ":" ++ addr

/-- Entries belonging to the subdirectory d, with their leading segment
stripped. -/
def subEntriesFor (d : String) (es : List TEntry) : List TEntry :=
  es.filterMap (fun e =>
    match e.segs with
    | n :: rest => if rest ≠ [] ∧ n = d then some ⟨rest, e.addr, e.mode⟩ else none
    | [] => none)

/-- Modelled from the spec: TreeBuilder (section 4.3). Entries are grouped by
their immediate parent directory; each subdirectory tree is built first and
folded into the parent as a subdirectory entry of mode 040000. The returned
string is the tree's content address (serialization as hash). The fuel
argument bounds the nesting depth and exceeds the longest path of the input
wherever the builder is invoked. -/
def buildTree : Nat → List TEntry → String
  | 0, _ => "tree[]"
  | fuel + 1, es =>
      let files := es.filterMap (fun e =>
        match e.segs with
        | [n] => some (treeEntryLine n e.mode e.addr)
        | _ => none)
      let dirs := (es.filterMap (fun e =>
        match e.segs with
        | n :: _ :: _ => some n
        | _ => none)).dedup
      let dirLines := dirs.map (fun d =>
        treeEntryLine d "040000" (buildTree fuel (subEntriesFor d es)))
      "tree[" ++ String.intercalate ";" (files ++ dirLines) ++ "]"

/-- Modelled from the spec: path normalization of TreeBuilder — split on the
separator and strip empty segments. -/
def pathSegments (p : String) : List String :=
  (pySplit '/' p).filter (fun s => s ≠ "")

/-- Modelled from the spec: the root tree address of one sync, computed from
the canonicalized (path, address, mode) set; paths containing a dot-dot
segment are rejected with a PathError. -/
def rootTreeAddress (entries : List SyncEntry) : Except String String :=
  let sorted := canonSort entries
  if sorted.any (fun e => (pySplit '/' e.path).contains "..") then
    .error "PathError"
  else
    let tes := sorted.map (fun e => TEntry.mk (pathSegments e.path) e.addr e.mode)
    .ok (buildTree ((tes.map (fun t => t.segs.length)).foldr Nat.max 0 + 1) tes)

/-- Modelled from the spec: the triple ContentUploader derives from one
collected file — its path, the content address of its bytes, and its mode. -/
def syncEntryOf (f : LocalFile) : SyncEntry :=
  ⟨f.path, blobAddress f.content, fileMode f.executable⟩

/-- Modelled from the spec: the root tree address one sync run computes from
the collected file set. -/
def runRootTreeAddress (files : List LocalFile) : Except String String :=
  rootTreeAddress (files.map syncEntryOf)

/-- Outcome classification of a successful ref advancement. -/
inductive RefUpdateResult
  | created
  | updated
deriving DecidableEq

/-- Modelled from the spec: CommitComposer's branch ref advancement
(section 4.4). observedHead is the branch head read at sync start,
remoteHead the head recorded remotely at update time, newCommit the commit
just created. The returned pair is the ref state after the operation and the
operation's outcome: branch absent and still absent means the ref is
created; branch present and unmoved means it is updated; any mismatch fails
with ConcurrentModificationError and leaves the ref untouched. -/
def advanceRef (observedHead remoteHead : Option String) (newCommit : String) :
    Option String × Except String RefUpdateResult :=
  match observedHead, remoteHead with
  | none, none => (some newCommit, .ok .created)
  | none, some cur => (some cur, .error "ConcurrentModificationError")
  | some _, none => (none, .error "ConcurrentModificationError")
  | some old, some cur =>
      if cur = old then (some newCommit, .ok .updated)
      else (some cur, .error "ConcurrentModificationError")

/-! Claims. -/

/-- C1: for every pair of runs over byte-identical file sets placed at the
same relative paths, the computed root tree address is identical: the root
tree address is a pure function of the collected file set, invariant under
the order in which the files were collected or their uploads completed. -/
theorem root_tree_address_deterministic (files₁ files₂ : List LocalFile)
    (h : files₁.Perm files₂) :
    runRootTreeAddress files₁ = runRootTreeAddress files₂ := by
  unfold runRootTreeAddress rootTreeAddress
  rw [canonSort_eq_of_perm (h.map syncEntryOf)]

/-- Witness for C1: two concrete runs over the same three files, collected
in different orders, compute the same root tree address. -/
theorem root_tree_address_deterministic_witness :
    runRootTreeAddress
        [⟨"a/b.txt", [104, 105], false⟩, ⟨"c.txt", [33], true⟩] =
      runRootTreeAddress
        [⟨"c.txt", [33], true⟩, ⟨"a/b.txt", [104, 105], false⟩] :=
  root_tree_address_deterministic _ _ (List.Perm.swap _ _ _)

/-- C2: the branch ref update is atomic — when the advancement succeeds the
ref points at the new commit, and when it fails the ref is exactly what was
recorded remotely before the operation, with no partial state. -/
theorem ref_update_atomic (observedHead remoteHead : Option String) (newCommit : String) :
    ((advanceRef observedHead remoteHead newCommit).2.isOk = true →
      (advanceRef observedHead remoteHead newCommit).1 = some newCommit) ∧
    ((advanceRef observedHead remoteHead newCommit).2.isOk = false →
      (advanceRef observedHead remoteHead newCommit).1 = remoteHead) := by
  cases observedHead with
  | none =>
      cases remoteHead with
      | none => exact ⟨fun _ => rfl, fun h => by simp [advanceRef, Except.isOk, Except.toBool] at h⟩
      | some cur => exact ⟨fun h => by simp [advanceRef, Except.isOk, Except.toBool] at h, fun _ => rfl⟩
  | some old =>
      cases remoteHead with
      | none => exact ⟨fun h => by simp [advanceRef, Except.isOk, Except.toBool] at h, fun _ => rfl⟩
      | some cur =>
          by_cases hc : cur = old
          · exact ⟨fun _ => by simp [advanceRef, hc],
              fun h => by simp [advanceRef, hc, Except.isOk, Except.toBool] at h⟩
          · exact ⟨fun h => by simp [advanceRef, hc, Except.isOk, Except.toBool] at h,
              fun _ => by simp [advanceRef, hc]⟩

/-- Witness for C2: a successful creation leaves the ref at the new commit;
a concurrent move of the head leaves the ref exactly where the writer that
won the race put it. -/
theorem ref_update_atomic_witness :
    (advanceRef none none "c0").1 = some "c0" ∧
    (advanceRef (some "a") (some "b") "c0").1 = some "b" :=
  ⟨(ref_update_atomic none none "c0").1 (by decide),
   (ref_update_atomic (some "a") (some "b") "c0").2 (by decide)⟩

/-- C3 counterexample: at the concrete GitHubError with message API rate
limit exceeded, cmd_create_repo prints its one-line diagnosis but the
process exit status is 0, so the claimed non-zero completion status is
false. -/
theorem cli_error_exit_counterexample :
    ¬ ((cmd_create_repo (Except.error ⟨"API rate limit exceeded"⟩)).lines.length = 1 ∧
       (cmd_create_repo (Except.error ⟨"API rate limit exceeded"⟩)).exitCode ≠ 0) := by
  decide

/-- C3 as amended: for every GitHubError raised by an underlying operation,
each CLI command handler (list, create-repo, sync, create-and-sync) prints
exactly one diagnostic line, and the process completes with exit status 0 —
the handlers swallow the error and main never sets a non-zero status. -/
theorem cli_error_single_line_zero_exit :
    ∀ (e : GitHubError) (repository localPath branch : String) (call : SyncCall),
      cmd_list_repos (Except.error e) = ⟨["✗ Error: " ++ e.msg], 0⟩ ∧
      cmd_create_repo (Except.error e) = ⟨["✗ Error: " ++ e.msg], 0⟩ ∧
      (cmd_sync_project_step repository localPath branch = Except.ok call →
        cmd_sync_project repository localPath branch (fun _ => Except.error e) =
          ⟨["✗ Error: " ++ e.msg], 0⟩) ∧
      cmd_create_and_sync (Except.error e) = ⟨["✗ Error: " ++ e.msg], 0⟩ := by
  intro e repository localPath branch call
  refine ⟨rfl, rfl, fun h => ?_, rfl⟩
  simp [cmd_sync_project, h]

/-- Witness for C3 as amended: the sync handler, with the repository
argument o/r and a sync operation raising GitHubError boom, prints the
single diagnostic line and exits with status 0. -/
theorem cli_error_single_line_zero_exit_witness :
    cmd_sync_project "o/r" "." "main" (fun _ => Except.error ⟨"boom"⟩) =
      ⟨["✗ Error: boom"], 0⟩ :=
  (cli_error_single_line_zero_exit ⟨"boom"⟩ "o/r" "." "main"
    ⟨"o", "r", ".", "main"⟩).2.2.1 rfl

/-- C4: no exception raised inside an agent tool wrapper ever escapes it:
every tool result is a returned string, and when the underlying operation
raises (a GitHubError or any other exception) the returned string is the
rendered error message. -/
theorem agent_tools_never_propagate :
    ∀ (query s₂ s₃ s₄ : String) (res : Except PyExn (String × List String))
      (create : CreateCall → Except PyExn RepoInfo)
      (sync : SyncCall → Except PyExn (List String))
      (run : CreateSyncCall → Except PyExn (Option SyncSummary)) (e : PyExn),
      (list_my_github_repos query res).isOk = true ∧
      (create_github_repo s₂ create).isOk = true ∧
      (sync_project_to_github s₃ sync).isOk = true ∧
      (create_repo_and_upload_project s₄ run).isOk = true ∧
      (res = Except.error e → list_my_github_repos query res = Except.ok (renderCaught e)) ∧
      (∀ call, create_github_repo_step s₂ = Except.ok call → create call = Except.error e →
        create_github_repo s₂ create = Except.ok (renderCaught e)) ∧
      (∀ call, sync_project_to_github_step s₃ = Except.ok call → sync call = Except.error e →
        sync_project_to_github s₃ sync = Except.ok (renderCaught e)) ∧
      (∀ call, create_repo_and_upload_project_step s₄ = Except.ok call →
        run call = Except.error e →
        create_repo_and_upload_project s₄ run = Except.ok (renderCaught e)) := by
  intro query s₂ s₃ s₄ res create sync run e
  have hTry : ∀ body : Except PyExn String, (pyTry body).isOk = true := by
    intro body; cases body <;> rfl
  refine ⟨hTry _, ?_, ?_, ?_, ?_, ?_, ?_, ?_⟩
  · unfold create_github_repo
    cases create_github_repo_step s₂ with
    | error msg => exact hTry _
    | ok call => cases create call <;> exact hTry _
  · unfold sync_project_to_github
    cases sync_project_to_github_step s₃ with
    | error msg => exact hTry _
    | ok call => cases sync call <;> exact hTry _
  · unfold create_repo_and_upload_project
    cases create_repo_and_upload_project_step s₄ with
    | error msg => exact hTry _
    | ok call =>
        cases run call with
        | error err => exact hTry _
        | ok r => cases r <;> exact hTry _
  · intro h; simp [list_my_github_repos, pyTry, h]
  · intro call h hc; simp [create_github_repo, pyTry, h, hc]
  · intro call h hc; simp [sync_project_to_github, pyTry, h, hc]
  · intro call h hc; simp [create_repo_and_upload_project, pyTry, h, hc]

/-- Witness for C4: at concrete inputs, a raised GitHubError 401 inside the
listing tool and inside the sync tool comes back as the rendered plain-text
message, not as a propagated exception. -/
theorem agent_tools_never_propagate_witness :
    list_my_github_repos "anything" (Except.error (PyExn.githubError "401")) =
      Except.ok "GitHub Error: 401" ∧
    sync_project_to_github "o/r|dev" (fun _ => Except.error (PyExn.githubError "401")) =
      Except.ok "GitHub Error: 401" :=
  ⟨(agent_tools_never_propagate "anything" "" "o/r|dev" ""
      (Except.error (PyExn.githubError "401"))
      (fun _ => Except.error (PyExn.githubError "401"))
      (fun _ => Except.error (PyExn.githubError "401"))
      (fun _ => Except.error (PyExn.githubError "401"))
      (PyExn.githubError "401")).2.2.2.2.1 rfl,
   (agent_tools_never_propagate "anything" "" "o/r|dev" ""
      (Except.error (PyExn.githubError "401"))
      (fun _ => Except.error (PyExn.githubError "401"))
      (fun _ => Except.error (PyExn.githubError "401"))
      (fun _ => Except.error (PyExn.githubError "401"))
      (PyExn.githubError "401")).2.2.2.2.2.2.1
      ⟨"o", "r", ".", "dev"⟩ rfl rfl⟩

/-- C5 counterexample: for the repository argument a|b/c the first
pipe-field, a, does not split on the slash into two parts, yet the CLI sync
handler — which splits the whole argument, not the first pipe-field — 
accepts it and invokes sync_project_to_repo with owner a|b and repo c. -/
theorem sync_format_cli_counterexample :
    ((pySplit '/' (pyStrip ((pySplit '|' "a|b/c").getD 0 ""))).length ≠ 2) ∧
    cmd_sync_project_step "a|b/c" "." "main" =
      Except.ok ⟨"a|b", "c", ".", "main"⟩ ∧
    cmd_sync_project "a|b/c" "." "main" (fun _ => Except.ok []) =
      ⟨["✓ Synced 0 files to a|b/c"], 0⟩ :=
  ⟨by decide, rfl, rfl⟩

/-- C5 as amended: the agent tool rejects, with a format error and without
invoking sync_project_to_repo, every input whose first pipe-field does not
split on the slash into exactly two parts; the CLI does not pipe-split its
repository argument — it reports a format error and never invokes
sync_project_to_repo exactly when the whole argument does not split on the
slash into exactly two parts, so an argument containing a pipe can be
accepted even though its first pipe-field has no slash. -/
theorem sync_format_check_amended :
    (∀ (s : String) (sync : SyncCall → Except PyExn (List String)),
      (pySplit '/' (pyStrip ((pySplit '|' s).getD 0 ""))).length ≠ 2 →
      sync_project_to_github_step s = Except.error repoFormatMsg ∧
      sync_project_to_github s sync = Except.ok repoFormatMsg) ∧
    (∀ (r p b : String) (sync : SyncCall → Except GitHubError (List String)),
      (pySplit '/' r).length ≠ 2 →
      cmd_sync_project_step r p b = Except.error ("✗ Error: " ++ repoFormatMsg) ∧
      cmd_sync_project r p b sync = ⟨["✗ Error: " ++ repoFormatMsg], 0⟩) := by
  constructor
  · intro s sync h
    have h1 : ¬ ((pySplit '|' s).length < 1) := by
      simpa using pySplit_ne_nil '|' s
    have hstep : sync_project_to_github_step s = Except.error repoFormatMsg := by
      simp only [sync_project_to_github_step]
      rw [if_neg h1, if_pos h]
    exact ⟨hstep, by simp [sync_project_to_github, pyTry, hstep]⟩
  · intro r p b sync h
    have hstep : cmd_sync_project_step r p b = Except.error ("✗ Error: " ++ repoFormatMsg) := by
      simp only [cmd_sync_project_step]
      rw [if_neg h]
    exact ⟨hstep, by simp [cmd_sync_project, hstep]⟩

/-- Witness for C5 as amended: an argument without any slash is rejected by
both surfaces, with no call to sync_project_to_repo. -/
theorem sync_format_check_amended_witness :
    sync_project_to_github_step "abc" = Except.error repoFormatMsg ∧
    cmd_sync_project_step "abc" "." "main" = Except.error ("✗ Error: " ++ repoFormatMsg) :=
  ⟨(sync_format_check_amended.1 "abc" (fun _ => Except.ok []) (by decide)).1,
   (sync_format_check_amended.2 "abc" "." "main" (fun _ => Except.ok []) (by decide)).1⟩

/-- C6: every input with fewer than three pipe-separated fields makes both
create tools return the format-error message; the parsing step rejects it,
so neither create_repository nor create_repo_and_sync is ever invoked and
the tool result is the format message whatever the underlying operations
would do. -/
theorem create_tools_reject_short_input :
    ∀ (s : String) (create : CreateCall → Except PyExn RepoInfo)
      (run : CreateSyncCall → Except PyExn (Option SyncSummary)),
      (pySplit '|' s).length < 3 →
      create_github_repo_step s = Except.error invalidFormatMsg ∧
      create_repo_and_upload_project_step s = Except.error invalidFormatMsg ∧
      create_github_repo s create = Except.ok invalidFormatMsg ∧
      create_repo_and_upload_project s run = Except.ok invalidFormatMsg := by
  intro s create run h
  have h₁ : create_github_repo_step s = Except.error invalidFormatMsg := by
    simp [create_github_repo_step, h]
  have h₂ : create_repo_and_upload_project_step s = Except.error invalidFormatMsg := by
    simp [create_repo_and_upload_project_step, h]
  exact ⟨h₁, h₂, by simp [create_github_repo, pyTry, h₁],
    by simp [create_repo_and_upload_project, pyTry, h₂]⟩

/-- Witness for C6: the two-field input a|b is rejected by both create
tools. -/
theorem create_tools_reject_short_input_witness :
    (pySplit '|' "a|b").length < 3 ∧
    create_github_repo_step "a|b" = Except.error invalidFormatMsg ∧
    create_repo_and_upload_project_step "a|b" = Except.error invalidFormatMsg :=
  ⟨by decide,
   (create_tools_reject_short_input "a|b" (fun _ => Except.error (PyExn.githubError ""))
     (fun _ => Except.error (PyExn.githubError "")) (by decide)).1,
   (create_tools_reject_short_input "a|b" (fun _ => Except.error (PyExn.githubError ""))
     (fun _ => Except.error (PyExn.githubError "")) (by decide)).2.1⟩

/-- C7: for every well-formed input of at least three pipe-fields, both
create tools assemble their call and request a private repository exactly
when the third pipe-field, stripped and lowercased, is the string true; any
other value yields a public repository. -/
theorem create_tools_private_iff_true :
    ∀ (s : String), 3 ≤ (pySplit '|' s).length →
      (create_github_repo_step s).isOk = true ∧
      (create_repo_and_upload_project_step s).isOk = true ∧
      (create_github_repo_step s).toOption.map CreateCall.isPrivate =
        some (pyLower (pyStrip ((pySplit '|' s).getD 2 "")) == "true") ∧
      (create_repo_and_upload_project_step s).toOption.map CreateSyncCall.isPrivate =
        some (pyLower (pyStrip ((pySplit '|' s).getD 2 "")) == "true") := by
  intro s h
  have h₃ : ¬ ((pySplit '|' s).length < 3) := by omega
  have h₂ : 2 < (pySplit '|' s).length := by omega
  refine ⟨?_, ?_, ?_, ?_⟩
  · simp [create_github_repo_step, h₃, Except.isOk, Except.toBool]
  · simp [create_repo_and_upload_project_step, h₃, Except.isOk, Except.toBool]
  · simp [create_github_repo_step, h₃, h₂, Except.toOption]
  · simp [create_repo_and_upload_project_step, h₃, h₂, Except.toOption]

/-- Witness for C7: the input n|d|True|myorg, whose third field strips and
lowercases to true, is parsed by both tools with the private flag set. -/
theorem create_tools_private_iff_true_witness :
    3 ≤ (pySplit '|' "n|d|True|myorg").length ∧
    (create_github_repo_step "n|d|True|myorg").toOption.map CreateCall.isPrivate =
      some (pyLower (pyStrip ((pySplit '|' "n|d|True|myorg").getD 2 "")) == "true") ∧
    (pyLower (pyStrip ((pySplit '|' "n|d|True|myorg").getD 2 "")) == "true") = true :=
  ⟨by decide,
   (create_tools_private_iff_true "n|d|True|myorg" (by decide)).2.2.1,
   by decide⟩

/-- C8 counterexample: a CLI sync request with a supplied blank branch value
targets the blank branch, not main — the argparse default applies only when
the option is omitted, so the request with branch equal to the empty string
reaches sync_project_to_repo with that empty branch. -/
theorem cli_blank_branch_counterexample :
    pyStrip (cliSyncBranchValue (some "")) = "" ∧
    cmd_sync_project_step "a/b" "." (cliSyncBranchValue (some "")) =
      Except.ok ⟨"a", "b", ".", ""⟩ ∧
    ("" : String) ≠ "main" :=
  ⟨by decide, rfl, by decide⟩

/-- C8 as amended: the agent tool targets branch main whenever its branch
field is omitted or strips to blank, and the CLI sync command targets main
whenever the branch option is omitted; a blank branch value supplied to the
CLI option is passed through unchanged rather than replaced by main. -/
theorem default_branch_main_amended :
    (∀ (s : String) (call : SyncCall),
      ((pySplit '|' s).length ≤ 1 ∨ pyStrip ((pySplit '|' s).getD 1 "") = "") →
      sync_project_to_github_step s = Except.ok call → call.branch = "main") ∧
    cliSyncBranchValue none = "main" ∧
    (∀ (r p : String) (call : SyncCall),
      cmd_sync_project_step r p (cliSyncBranchValue none) = Except.ok call →
      call.branch = "main") := by
  refine ⟨?_, rfl, ?_⟩
  · intro s call hblank hok
    have h1 : ¬ ((pySplit '|' s).length < 1) := by
      simpa using pySplit_ne_nil '|' s
    have hcond : ¬ (1 < (pySplit '|' s).length ∧ pyStrip ((pySplit '|' s).getD 1 "") ≠ "") := by
      rintro ⟨ha, hb⟩
      rcases hblank with h | h
      · omega
      · exact hb h
    simp only [sync_project_to_github_step] at hok
    rw [if_neg h1, if_neg hcond] at hok
    split at hok
    · exact absurd hok (by simp)
    · simp only [Except.ok.injEq] at hok
      subst hok
      rfl
  · intro r p call hok
    simp only [cmd_sync_project_step, cliSyncBranchValue, Option.getD] at hok
    split at hok
    · simp only [Except.ok.injEq] at hok
      subst hok
      rfl
    · exact absurd hok (by simp)

/-- Witness for C8 as amended: the agent input o/r with no branch field, and
a CLI invocation of a/b without the branch option, both target main. -/
theorem default_branch_main_amended_witness :
    (SyncCall.mk "o" "r" "." "main").branch = "main" ∧
    cliSyncBranchValue none = "main" ∧
    (SyncCall.mk "a" "b" "." "main").branch = "main" :=
  ⟨default_branch_main_amended.1 "o/r" ⟨"o", "r", ".", "main"⟩ (by decide) rfl,
   default_branch_main_amended.2.1,
   default_branch_main_amended.2.2 "a/b" "." ⟨"a", "b", ".", "main"⟩ rfl⟩

/-- C9: the agent-facing sync and create-and-upload tools always pass the
current directory as the local path of the engine call, independently of the
agent input, while the CLI sync handler passes its path argument through. -/
theorem agent_local_path_fixed :
    ∀ (s t r p b : String) (c₁ : SyncCall) (c₂ : CreateSyncCall) (c₃ : SyncCall),
      (sync_project_to_github_step s = Except.ok c₁ → c₁.localPath = ".") ∧
      (create_repo_and_upload_project_step t = Except.ok c₂ → c₂.localPath = ".") ∧
      (cmd_sync_project_step r p b = Except.ok c₃ → c₃.localPath = p) := by
  intro s t r p b c₁ c₂ c₃
  refine ⟨fun h => ?_, fun h => ?_, fun h => ?_⟩
  · simp only [sync_project_to_github_step] at h
    split at h
    · exact absurd h (by simp)
    · split at h
      · exact absurd h (by simp)
      · simp only [Except.ok.injEq] at h
        subst h
        rfl
  · simp only [create_repo_and_upload_project_step] at h
    split at h
    · exact absurd h (by simp)
    · simp only [Except.ok.injEq] at h
      subst h
      rfl
  · simp only [cmd_sync_project_step] at h
    split at h
    · simp only [Except.ok.injEq] at h
      subst h
      rfl
    · exact absurd h (by simp)

/-- Witness for C9: the agent tools at concrete inputs pass the current
directory, and the CLI with an explicit path option passes that path. -/
theorem agent_local_path_fixed_witness :
    (SyncCall.mk "o" "r" "." "main").localPath = "." ∧
    (CreateSyncCall.mk "n" "d" true "." none).localPath = "." ∧
    (SyncCall.mk "a" "b" "/tmp/x" "dev").localPath = "/tmp/x" :=
  ⟨(agent_local_path_fixed "o/r" "n|d|true" "a/b" "/tmp/x" "dev"
      ⟨"o", "r", ".", "main"⟩ ⟨"n", "d", true, ".", none⟩ ⟨"a", "b", "/tmp/x", "dev"⟩).1 rfl,
   (agent_local_path_fixed "o/r" "n|d|true" "a/b" "/tmp/x" "dev"
      ⟨"o", "r", ".", "main"⟩ ⟨"n", "d", true, ".", none⟩ ⟨"a", "b", "/tmp/x", "dev"⟩).2.1 rfl,
   (agent_local_path_fixed "o/r" "n|d|true" "a/b" "/tmp/x" "dev"
      ⟨"o", "r", ".", "main"⟩ ⟨"n", "d", true, ".", none⟩ ⟨"a", "b", "/tmp/x", "dev"⟩).2.2 rfl⟩
